import Mathlib

/-!
Verification of the StreamFlow streaming gateway (src/server.js and the
gateway variant in src/unnamed/part_004) against its design document.

The JavaScript handlers are shallowly embedded as pure Lean functions:
the network is an abstract `upstream` function from request options to an
outcome, the HTTP response a value of an inductive result type, and the
event handlers (client close, upstream timeout) pure functions describing
the action each handler performs.  All string operations are implemented
by structural recursion on character lists so that every definition
evaluates inside the kernel.
-/

namespace StreamGateway

/-- ASCII lowercasing of one character, as performed by a case-insensitive
(`/i`) regular-expression match on ASCII input. -/
def charLowerAscii (c : Char) : Char :=
  if 'A' ≤ c ∧ c ≤ 'Z' then Char.ofNat (c.toNat + 32) else c

/-- Boolean test that the first list is a prefix of the second
(character-by-character equality). -/
def charsPrefixOf : List Char → List Char → Bool
  | [], _ => true
  | _ :: _, [] => false
  | a :: as, b :: bs => (a == b) && charsPrefixOf as bs

/-- Boolean test that the first list is a prefix of the second up to ASCII
case. -/
def charsPrefixOfCI : List Char → List Char → Bool
  | [], _ => true
  | _ :: _, [] => false
  | a :: as, b :: bs => (charLowerAscii a == charLowerAscii b) && charsPrefixOfCI as bs

/-- Boolean test that the first list occurs contiguously inside the
second. -/
def charsInfixOf : List Char → List Char → Bool
  | p, [] => p.isEmpty
  | p, b :: bs => charsPrefixOf p (b :: bs) || charsInfixOf p bs

/-- Models JavaScript `s.includes(sub)`. -/
def jsIncludes (s sub : String) : Bool :=
  charsInfixOf sub.toList s.toList

/-- Models JavaScript `s.startsWith(p)`. -/
def jsStartsWith (s p : String) : Bool :=
  charsPrefixOf p.toList s.toList

/-- Models JavaScript `s.endsWith(p)`. -/
def jsEndsWith (s p : String) : Bool :=
  charsPrefixOf p.toList.reverse s.toList.reverse

/-- Case-insensitive end-of-string match: `endsWithCI s p` models the
anchored case-insensitive regular-expression test `/p$/i.test(s)` for an
ASCII literal `p`. -/
def endsWithCI (s p : String) : Bool :=
  charsPrefixOfCI p.toList.reverse s.toList.reverse

/-- The browser-incompatible container extensions of src/server.js line 61:
the target URL is tested against the anchored case-insensitive regular
expression matching `.mkv`, `.avi`, `.flv` or `.wmv` at the end of the
URL string. -/
def hasIncompatibleExt (videoUrl : String) : Bool :=
  endsWithCI videoUrl ".mkv" || endsWithCI videoUrl ".avi" ||
  endsWithCI videoUrl ".flv" || endsWithCI videoUrl ".wmv"

/-- Routing predicate of src/server.js lines 59-61: the remux pipeline is
selected when the query carries `transcode=true`, or `faststart=true`, or
the URL ends in a browser-incompatible container extension. -/
def needsTranscode (transcode faststart : Option String) (videoUrl : String) : Bool :=
  transcode == some "true" || faststart == some "true" || hasIncompatibleExt videoUrl

/-- Generic association-list lookup over a header list, modelling how the
header object literals of the source are consumed: the value bound to the
first occurrence of `name`. -/
def getHeader : List (String × String) → String → Option String
  | [], _ => none
  | (k, v) :: rest, name => if k = name then some v else getHeader rest name

/-- Phase of a remux job at the moment the client connection closes. -/
inductive RemuxPhase where
  | running
  | finished
deriving DecidableEq

/-- Action a connection-close handler performs on the external remux
process. -/
inductive CloseAction where
  | killProcess (signal : String)
  | noAction
deriving DecidableEq

/-- Result of setting up the remux branch of src/server.js lines 65-100:
the response head written immediately, the ffmpeg input/output options,
and the handler registered on the client connection's close event. -/
structure RemuxSetup where
  status : Nat
  headers : List (String × String)
  inputUrl : String
  inputOptions : List String
  outputOptions : List String
  onClose : RemuxPhase → CloseAction

/-- Embedding of the transcode branch of src/server.js lines 65-100.  The
branch writes a 200 head unconditionally, configures ffmpeg, pipes its
output to the response, and registers a close handler that kills the
process with SIGKILL; the client `Range` header is taken as an argument to
record that the branch never consults it. -/
def remuxSetup (videoUrl : String) (userAgent : Option String)
    (clientRange : Option String) : RemuxSetup :=
  { status := 200
  , headers := [("Content-Type", "video/mp4"), ("Connection", "keep-alive"),
      ("Access-Control-Allow-Origin", "*"),
      ("Cross-Origin-Resource-Policy", "cross-origin")]
  , inputUrl := videoUrl
  , inputOptions := ["-re",
      "-headers", "User-Agent: " ++ userAgent.getD "Mozilla/5.0",
      "-rw_timeout", "15000000"]
  , outputOptions := ["-movflags frag_keyframe+empty_moov+default_base_moof",
      "-c:v copy", "-c:a aac", "-f mp4"]
  , onClose := fun _ => .killProcess "SIGKILL" }

/-! The legacy URL parser.  src/server.js calls Node's `url.parse` and uses
the `protocol`, `hostname`, `port` and `path` components.  The parser below
models `url.parse` for http/https URLs: the scheme is split at the first
`://`, the authority runs to the first `/`, `?` or `#`, the port is split
from the host at `:`, the hostname is lowercased, and the path (including
the query string) defaults to `/`. -/

/-- Components of a parsed URL as produced by Node's legacy `url.parse`. -/
structure ParsedUrl where
  protocol : String
  hostname : String
  port : Option String
  path : String
deriving DecidableEq

/-- Splits a character list at the first occurrence of `://`, returning the
scheme characters and the remainder, or `none` when no `://` occurs. -/
def splitScheme : List Char → Option (List Char × List Char)
  | [] => none
  | c :: cs =>
    if c = ':' then
      match cs with
      | '/' :: '/' :: rest => some ([], rest)
      | _ => none
    else
      match splitScheme cs with
      | some (pre, post) => some (c :: pre, post)
      | none => none

/-- Characters of the authority component: everything before the first
`/`, `?` or `#`. -/
def takeAuthority : List Char → List Char
  | [] => []
  | c :: cs => if c = '/' ∨ c = '?' ∨ c = '#' then [] else c :: takeAuthority cs

/-- Characters from the first `/`, `?` or `#` on: the path component. -/
def dropAuthority : List Char → List Char
  | [] => []
  | c :: cs => if c = '/' ∨ c = '?' ∨ c = '#' then c :: cs else dropAuthority cs

/-- Splits an authority at the first `:` into hostname and optional
port. -/
def splitHostPort : List Char → List Char × Option (List Char)
  | [] => ([], none)
  | c :: cs =>
    if c = ':' then ([], some cs)
    else
      let hp := splitHostPort cs
      (c :: hp.1, hp.2)

/-- Model of Node's legacy `url.parse` restricted to the components the
gateway reads.  A string without `://` yields empty protocol and hostname
and is kept whole as the path. -/
def legacyUrlParse (s : String) : ParsedUrl :=
  match splitScheme s.toList with
  | none => { protocol := "", hostname := "", port := none, path := s }
  | some (scheme, rest) =>
    let authority := takeAuthority rest
    let rawPath := dropAuthority rest
    let hp := splitHostPort authority
    { protocol := scheme.asString ++ ":"
    , hostname := (hp.1.map charLowerAscii).asString
    , port := hp.2.map (fun p => p.asString)
    , path := if rawPath.isEmpty then "/" else rawPath.asString }

/-! The direct relay pipeline of src/server.js lines 103-226. -/

/-- Outbound request headers forged by src/server.js lines 119-135. -/
structure RequestHeaders where
  userAgent : String
  accept : String
  acceptEncoding : String
  connection : String
  referer : String
  range : Option String
  cookie : Option String
deriving DecidableEq

/-- Models JavaScript `Array.prototype.join('; ')`. -/
def joinCookies : List String → String
  | [] => ""
  | [c] => c
  | c :: cs => c ++ "; " ++ joinCookies cs

/-- Header forging of src/server.js lines 119-135: fixed browser-like
`User-Agent`, `Accept`, identity encoding, keep-alive, a referer derived
from the upstream host, the client's `Range` header when present, and the
accumulated session cookies when any. -/
def buildHeaders (parsedUrl : ParsedUrl) (clientRange : Option String)
    (sessionCookies : List String) : RequestHeaders :=
  { userAgent := "Mozilla/5.0 (Linux; Android 10; K) AppleWebKit/537.36 (KHTML, like Gecko) Chrome/120.0.0.0 Mobile Safari/537.36"
  , accept := "video/webm,video/ogg,video/*;q=0.9,application/ogg;q=0.7,audio/*;q=0.6,*/*;q=0.5"
  , acceptEncoding := "identity"
  , connection := "keep-alive"
  , referer := parsedUrl.protocol ++ "//" ++ parsedUrl.hostname ++ "/"
  , range := clientRange
  , cookie := if sessionCookies.length > 0 then some (joinCookies sessionCookies) else none }

/-- Options passed to `protocol.request` at src/server.js lines 137-144.
The Node options object carries no `timeout` key, which the `timeout`
field records as `none`: no request timeout is configured. -/
structure RequestOptions where
  hostname : String
  port : Option String
  path : String
  method : String
  headers : RequestHeaders
  rejectUnauthorized : Bool
  timeout : Option Nat
deriving DecidableEq

/-- Builds the request options of src/server.js lines 137-144 from the
parsed target URL and the forged headers. -/
def mkRequestOptions (parsedUrl : ParsedUrl) (headers : RequestHeaders) : RequestOptions :=
  { hostname := parsedUrl.hostname
  , port := parsedUrl.port
  , path := parsedUrl.path
  , method := "GET"
  , headers := headers
  , rejectUnauthorized := false
  , timeout := none }

/-- Upstream response headers the gateway reads. -/
structure UpstreamHeaders where
  location : Option String
  setCookie : List String
  contentType : Option String
  contentLength : Option String
  contentRange : Option String
  etag : Option String
  lastModified : Option String
deriving DecidableEq

/-- Status line and headers of one upstream response. -/
structure UpstreamResponse where
  statusCode : Nat
  headers : UpstreamHeaders
deriving DecidableEq

/-- Which of the three events of one upstream request fires: a response
arrives, the connection errors before headers, or a timeout event fires. -/
inductive UpstreamOutcome where
  | response (r : UpstreamResponse)
  | netError
  | timeout
deriving DecidableEq

/-- Cookie capture of src/server.js lines 147-152: the first `;`-separated
part of every `Set-Cookie` value is appended to the session jar. -/
def cookieFirstPart : List Char → List Char
  | [] => []
  | c :: cs => if c = ';' then [] else c :: cookieFirstPart cs

/-- Appends the captured cookie names to the session cookie jar. -/
def captureCookies (sessionCookies : List String) (setCookie : List String) : List String :=
  sessionCookies ++ setCookie.map (fun c => (cookieFirstPart c.toList).asString)

/-- Redirect test of src/server.js line 155: a 3xx status together with a
`Location` header. -/
def isRedirectResponse (r : UpstreamResponse) : Bool :=
  (300 ≤ r.statusCode && r.statusCode < 400) && r.headers.location.isSome

/-- Redirect resolution of src/server.js lines 156-159: a location starting
with `/` is resolved against the current protocol and hostname, any other
location is followed verbatim. -/
def resolveRedirect (parsedUrl : ParsedUrl) (location : String) : String :=
  if jsStartsWith location "/" then
    parsedUrl.protocol ++ "//" ++ parsedUrl.hostname ++ location
  else location

/-- MIME normalization of src/server.js lines 169-172: a missing upstream
content type defaults to `video/mp4`, and a type mentioning
`octet-stream` or `guploader` is rewritten to `video/mp4`. -/
def sanitizeContentType (upstreamContentType : Option String) : String :=
  let contentType := upstreamContentType.getD "video/mp4"
  if jsIncludes contentType "octet-stream" || jsIncludes contentType "guploader" then
    "video/mp4"
  else contentType

/-- Response header construction of src/server.js lines 174-186: the fixed
header block followed by `Content-Length`, `Content-Range` and `ETag`
copied from upstream when present. -/
def responseHeaders (h : UpstreamHeaders) : List (String × String) :=
  [("Content-Type", sanitizeContentType h.contentType),
   ("Access-Control-Allow-Origin", "*"),
   ("Cross-Origin-Resource-Policy", "cross-origin"),
   ("Accept-Ranges", "bytes"),
   ("Cache-Control", "no-cache"),
   ("X-Content-Type-Options", "nosniff")]
  ++ (match h.contentLength with | some v => [("Content-Length", v)] | none => [])
  ++ (match h.contentRange with | some v => [("Content-Range", v)] | none => [])
  ++ (match h.etag with | some v => [("ETag", v)] | none => [])

/-- Terminal outcome of one direct-relay session: an error response sent
before streaming, or a relayed response head whose body is then piped. -/
inductive DirectResult where
  | errorResponse (status : Nat) (body : String)
  | relay (status : Nat) (headers : List (String × String))
deriving DecidableEq

/-- Result of a session together with the trace of upstream requests it
issued, each recorded with the attempt counter it was issued at. -/
structure DirectRun where
  result : DirectResult
  requested : List (String × Nat)
deriving DecidableEq

/-- Embedding of `proxyStream` (src/server.js lines 109-222).  The network
is an abstract function from request options to the outcome of the
request.  Per invocation: past 10 attempts the session fails 502 without a
further request; otherwise the target is parsed, headers are forged and
one request is issued; a 3xx response carrying a `Location` recurses on
the resolved location with the attempt counter incremented and the cookie
jar extended; any other response is relayed with its status code and
sanitized headers; a request error yields 502 and a timeout event 504. -/
def proxyStream (upstream : RequestOptions → UpstreamOutcome)
    (clientRange : Option String) (sessionCookies : List String)
    (targetUrl : String) (attempt : Nat) : DirectRun :=
  if h : attempt > 10 then
    { result := .errorResponse 502 "Too many redirects", requested := [] }
  else
    let parsedUrl := legacyUrlParse targetUrl
    let headers := buildHeaders parsedUrl clientRange sessionCookies
    match upstream (mkRequestOptions parsedUrl headers) with
    | .netError =>
      { result := .errorResponse 502 "Bad Gateway", requested := [(targetUrl, attempt)] }
    | .timeout =>
      { result := .errorResponse 504 "Gateway Timeout", requested := [(targetUrl, attempt)] }
    | .response proxyRes =>
      let cookies := captureCookies sessionCookies proxyRes.headers.setCookie
      if isRedirectResponse proxyRes then
        let rest := proxyStream upstream clientRange cookies
          (resolveRedirect parsedUrl (proxyRes.headers.location.getD "")) (attempt + 1)
        { result := rest.result, requested := (targetUrl, attempt) :: rest.requested }
      else
        { result := .relay proxyRes.statusCode (responseHeaders proxyRes.headers)
        , requested := [(targetUrl, attempt)] }
termination_by 11 - attempt
decreasing_by simp_wf; omega

/-- Action performed by the upstream timeout handler of src/server.js
lines 212-215: the upstream request is destroyed, and a 504 response is
sent when response headers have not yet been sent. -/
structure TimeoutAction where
  destroyUpstream : Bool
  response : Option (Nat × String)
deriving DecidableEq

/-- Embedding of the `timeout` event handler of src/server.js lines
212-215. -/
def onUpstreamTimeout (headersSent : Bool) : TimeoutAction :=
  { destroyUpstream := true
  , response := if headersSent then none else some (504, "Gateway Timeout") }

end StreamGateway

namespace Part004

/-!
The gateway variant in src/unnamed/part_004 performs URL validation and
provider exclusion before touching the network (lines 37-68).  Its `/proxy`
handler is embedded up to the point where a pipeline is entered: the
classification below is computed before any upstream request is issued.
-/

open StreamGateway

/-- Embedding of `isValidUrl` (src/unnamed/part_004 lines 37-44): the
handler calls the platform URL constructor, which succeeds exactly on
absolute URLs; that platform primitive is the abstract argument
`absUrlParses`. -/
def isValidUrl (absUrlParses : String → Bool) (s : String) : Bool :=
  absUrlParses s

/-- Embedding of `isYouTube` (src/unnamed/part_004 lines 46-48). -/
def isYouTube (link : String) : Bool :=
  jsIncludes link "youtube.com" || jsIncludes link "youtu.be"

/-- JavaScript truthiness of an optional string-valued query parameter:
an absent parameter and the empty string are falsy. -/
def jsTruthy : Option String → Bool
  | none => false
  | some s => !(s == "")

/-- Classification a request reaches before any network activity. -/
inductive Decision where
  | invalidRequest
  | unsupportedProvider
  | remux
  | direct
deriving DecidableEq

/-- Embedding of the dispatch prefix of the `/proxy` handler of
src/unnamed/part_004 lines 51-88: missing/empty or unparsable URLs are
rejected first, then YouTube URLs, then the remux pipeline is chosen for
`transcode=true` or a `.mkv`/`.avi` suffix, and the direct pipeline
otherwise. -/
def route (absUrlParses : String → Bool) (urlParam transcode : Option String) : Decision :=
  let videoUrl := urlParam.getD ""
  if !(jsTruthy urlParam) || !(isValidUrl absUrlParses videoUrl) then
    .invalidRequest
  else if isYouTube videoUrl then
    .unsupportedProvider
  else if transcode == some "true" || jsEndsWith videoUrl ".mkv" || jsEndsWith videoUrl ".avi" then
    .remux
  else
    .direct

/-- HTTP status of the error responses produced by the dispatch prefix
(src/unnamed/part_004 lines 57 and 63): both rejections respond 400. -/
def errorStatus : Decision → Option Nat
  | .invalidRequest => some 400
  | .unsupportedProvider => some 400
  | .remux => none
  | .direct => none

/-- Whether a classification leads to an upstream fetch: only the two
pipelines contact the network; both rejections return before the
request-issuing code. -/
def issuesUpstreamRequest : Decision → Bool
  | .invalidRequest => false
  | .unsupportedProvider => false
  | .remux => true
  | .direct => true

end Part004

namespace StreamGateway

/-! Concrete upstream fixtures used to evaluate the theorems below on
closed inputs. -/

/-- Headers of a 206 partial-content upstream response. -/
def c1RespHeaders : UpstreamHeaders where
  location := none
  setCookie := []
  contentType := some "video/mp4"
  contentLength := some "100"
  contentRange := some "bytes 0-99/1000"
  etag := none
  lastModified := none

/-- A 206 partial-content upstream response. -/
def c1Resp : UpstreamResponse where
  statusCode := 206
  headers := c1RespHeaders

/-- An upstream that answers every request with the 206 response. -/
def c1Upstream : RequestOptions → UpstreamOutcome := fun _ => .response c1Resp

/-- Headers of the first hop of a two-redirect chain. -/
def c2HeadersA : UpstreamHeaders where
  location := some "http://h/b"
  setCookie := ["sid=1; Path=/"]
  contentType := none
  contentLength := none
  contentRange := none
  etag := none
  lastModified := none

/-- Headers of the second hop of a two-redirect chain. -/
def c2HeadersB : UpstreamHeaders where
  location := some "http://h/c"
  setCookie := []
  contentType := none
  contentLength := none
  contentRange := none
  etag := none
  lastModified := none

/-- Headers of the terminal resource of the chain. -/
def c2TermHeaders : UpstreamHeaders where
  location := none
  setCookie := []
  contentType := some "application/octet-stream"
  contentLength := some "1000"
  contentRange := none
  etag := some "abc"
  lastModified := none

/-- First redirect hop: a 302 to `http://h/b`. -/
def c2RespA : UpstreamResponse where
  statusCode := 302
  headers := c2HeadersA

/-- Second redirect hop: a 301 to `http://h/c`. -/
def c2RespB : UpstreamResponse where
  statusCode := 301
  headers := c2HeadersB

/-- Terminal resource of the chain: a plain 200. -/
def c2Term : UpstreamResponse where
  statusCode := 200
  headers := c2TermHeaders

/-- URLs of the two-redirect chain. -/
def c2Chain : Nat → String
  | 0 => "http://h/a"
  | 1 => "http://h/b"
  | _ => "http://h/c"

/-- Redirect responses of the chain, indexed by hop. -/
def c2Resp : Nat → UpstreamResponse
  | 0 => c2RespA
  | _ => c2RespB

/-- An upstream realizing the two-redirect chain, discriminating on the
request path. -/
def c2Upstream : RequestOptions → UpstreamOutcome := fun opts =>
  if opts.path = "/a" then .response c2RespA
  else if opts.path = "/b" then .response c2RespB
  else .response c2Term

/-- An upstream response carrying a `Last-Modified` header. -/
def c9Example : UpstreamHeaders where
  location := none
  setCookie := []
  contentType := some "video/mp4"
  contentLength := some "1000"
  contentRange := none
  etag := none
  lastModified := some "Wed, 21 Oct 2015 07:28:00 GMT"

/-- An upstream response carrying every forwardable header. -/
def c9Full : UpstreamHeaders where
  location := none
  setCookie := []
  contentType := some "video/mp4"
  contentLength := some "1000"
  contentRange := some "bytes 0-999/5000"
  etag := some "tag1"
  lastModified := some "Mon, 01 Jan 2024 00:00:00 GMT"

/-! Unfolding lemmas for one step of `proxyStream`. -/

/-- Past the hop cap the session responds 502 without issuing a request. -/
theorem proxyStreamCap (upstream : RequestOptions → UpstreamOutcome)
    (clientRange : Option String) (cookies : List String) (u : String) (a : Nat)
    (h : a > 10) :
    proxyStream upstream clientRange cookies u a =
      { result := .errorResponse 502 "Too many redirects", requested := [] } := by
  rw [proxyStream]
  simp [h]

/-- A non-redirect upstream response is relayed with its status code and
sanitized headers. -/
theorem proxyStreamResolve (upstream : RequestOptions → UpstreamOutcome)
    (clientRange : Option String) (cookies : List String) (u : String) (a : Nat)
    (r : UpstreamResponse) (ha : ¬ a > 10)
    (hresp : upstream (mkRequestOptions (legacyUrlParse u)
      (buildHeaders (legacyUrlParse u) clientRange cookies)) = .response r)
    (hnr : isRedirectResponse r = false) :
    proxyStream upstream clientRange cookies u a =
      { result := .relay r.statusCode (responseHeaders r.headers)
      , requested := [(u, a)] } := by
  rw [proxyStream]
  simp [ha, hresp, hnr]

/-- A redirect response recurses on the resolved location with the attempt
counter incremented and the cookie jar extended. -/
theorem proxyStreamRedirect (upstream : RequestOptions → UpstreamOutcome)
    (clientRange : Option String) (cookies : List String) (u : String) (a : Nat)
    (r : UpstreamResponse) (ha : ¬ a > 10)
    (hresp : upstream (mkRequestOptions (legacyUrlParse u)
      (buildHeaders (legacyUrlParse u) clientRange cookies)) = .response r)
    (hr : isRedirectResponse r = true) :
    proxyStream upstream clientRange cookies u a =
      { result := (proxyStream upstream clientRange (captureCookies cookies r.headers.setCookie)
          (resolveRedirect (legacyUrlParse u) (r.headers.location.getD "")) (a + 1)).result
      , requested := (u, a) ::
          (proxyStream upstream clientRange (captureCookies cookies r.headers.setCookie)
            (resolveRedirect (legacyUrlParse u) (r.headers.location.getD "")) (a + 1)).requested } := by
  rw [proxyStream]
  simp [ha, hresp, hr]

/-! Lookup lemmas for the response header list built on the direct path. -/

/-- An upstream `Content-Length` is forwarded. -/
theorem getHeader_contentLength (h : UpstreamHeaders) (v : String)
    (hv : h.contentLength = some v) :
    getHeader (responseHeaders h) "Content-Length" = some v := by
  rcases hcr : h.contentRange with _ | cr <;> rcases he : h.etag with _ | e <;>
    simp [responseHeaders, getHeader, hv, hcr, he]

/-- An upstream `Content-Range` is forwarded. -/
theorem getHeader_contentRange (h : UpstreamHeaders) (v : String)
    (hv : h.contentRange = some v) :
    getHeader (responseHeaders h) "Content-Range" = some v := by
  rcases hcl : h.contentLength with _ | cl <;> rcases he : h.etag with _ | e <;>
    simp [responseHeaders, getHeader, hv, hcl, he]

/-- An upstream `ETag` is forwarded. -/
theorem getHeader_etag (h : UpstreamHeaders) (v : String)
    (hv : h.etag = some v) :
    getHeader (responseHeaders h) "ETag" = some v := by
  rcases hcl : h.contentLength with _ | cl <;> rcases hcr : h.contentRange with _ | cr <;>
    simp [responseHeaders, getHeader, hv, hcl, hcr]

/-- The direct path always asserts `Accept-Ranges: bytes`. -/
theorem getHeader_acceptRanges (h : UpstreamHeaders) :
    getHeader (responseHeaders h) "Accept-Ranges" = some "bytes" := by
  simp [responseHeaders, getHeader]

/-- The direct path always asserts a cross-origin resource policy. -/
theorem getHeader_corp (h : UpstreamHeaders) :
    getHeader (responseHeaders h) "Cross-Origin-Resource-Policy" = some "cross-origin" := by
  simp [responseHeaders, getHeader]

/-- The direct path always asserts a permissive CORS origin. -/
theorem getHeader_acao (h : UpstreamHeaders) :
    getHeader (responseHeaders h) "Access-Control-Allow-Origin" = some "*" := by
  simp [responseHeaders, getHeader]

/-- No `Last-Modified` header is ever emitted on the direct path. -/
theorem getHeader_lastModified_none (h : UpstreamHeaders) :
    getHeader (responseHeaders h) "Last-Modified" = none := by
  rcases hcl : h.contentLength with _ | cl <;> rcases hcr : h.contentRange with _ | cr <;>
    rcases he : h.etag with _ | e <;>
      simp [responseHeaders, getHeader, hcl, hcr, he]

/-- A URL ending in `.mp4` (up to case) matches none of the
browser-incompatible extensions. -/
theorem mp4_not_incompat (u : String) (h : endsWithCI u ".mp4" = true) :
    hasIncompatibleExt u = false := by
  have h4 : (".mp4".toList.reverse) = ['4', 'p', 'm', '.'] := rfl
  have hmkv : (".mkv".toList.reverse) = ['v', 'k', 'm', '.'] := rfl
  have havi : (".avi".toList.reverse) = ['i', 'v', 'a', '.'] := rfl
  have hflv : (".flv".toList.reverse) = ['v', 'l', 'f', '.'] := rfl
  have hwmv : (".wmv".toList.reverse) = ['v', 'm', 'w', '.'] := rfl
  unfold endsWithCI at h
  rw [h4] at h
  unfold hasIncompatibleExt endsWithCI
  rw [hmkv, havi, hflv, hwmv]
  rcases hu : u.toList.reverse with _ | ⟨c, cs⟩
  · rw [hu] at h
    simp [charsPrefixOfCI] at h
  · rw [hu] at h
    simp [charsPrefixOfCI] at h
    have hc : charLowerAscii c = '4' := by
      have h44 : charLowerAscii '4' = '4' := by decide
      rw [h44] at h
      exact h.1.symm
    have hv : charLowerAscii 'v' = 'v' := by decide
    have hi : charLowerAscii 'i' = 'i' := by decide
    simp [charsPrefixOfCI, hc, hv, hi]

/-- Resolution of a redirect chain: from hop `j` of a chain of `N`
redirects with `N ≤ 10`, the session relays the terminal resource and
issues exactly the requests for hops `j` through `N`, one per attempt
value. -/
theorem proxyStreamChain (upstream : RequestOptions → UpstreamOutcome)
    (clientRange : Option String) (N : Nat) (chain : Nat → String)
    (resp : Nat → UpstreamResponse) (term : UpstreamResponse)
    (hredir : ∀ i, i < N → isRedirectResponse (resp i) = true ∧
        (resp i).headers.location = some (chain (i + 1)) ∧
        jsStartsWith (chain (i + 1)) "/" = false)
    (hup : ∀ i, i < N → ∀ hd : RequestHeaders,
        upstream (mkRequestOptions (legacyUrlParse (chain i)) hd) = .response (resp i))
    (hterm : ∀ hd : RequestHeaders,
        upstream (mkRequestOptions (legacyUrlParse (chain N)) hd) = .response term)
    (htermNR : isRedirectResponse term = false)
    (hN : N ≤ 10) :
    ∀ k j cookies, N - j = k → j ≤ N →
      proxyStream upstream clientRange cookies (chain j) j =
        { result := .relay term.statusCode (responseHeaders term.headers)
        , requested := (List.range' j (N + 1 - j)).map (fun i => (chain i, i)) } := by
  intro k
  induction k with
  | zero =>
    intro j cookies hk hj
    have hjN : j = N := by omega
    rw [hjN]
    rw [proxyStreamResolve upstream clientRange cookies (chain N) N term (by omega)
      (hterm _) htermNR]
    have h1 : N + 1 - N = 1 := by omega
    rw [h1, List.range'_one]
    rfl
  | succ k ih =>
    intro j cookies hk hj
    have hjN : j < N := by omega
    obtain ⟨hr, hloc, hsl⟩ := hredir j hjN
    rw [proxyStreamRedirect upstream clientRange cookies (chain j) j (resp j) (by omega)
      (hup j hjN _) hr]
    rw [hloc]
    have hres : resolveRedirect (legacyUrlParse (chain j)) ((some (chain (j + 1))).getD "")
        = chain (j + 1) := by
      unfold resolveRedirect
      rw [Option.getD_some, hsl]
      simp
    rw [hres]
    rw [ih (j + 1) (captureCookies cookies (resp j).headers.setCookie) (by omega) (by omega)]
    have h2 : N + 1 - j = (N + 1 - (j + 1)) + 1 := by omega
    rw [h2, List.range'_succ]
    rfl

/-! Claims about the routing predicate of src/server.js. -/

/-- C3 counterexample: with `transcode` absent and `faststart=true`, a
`.mp4` URL is routed to the remux pipeline although the caller did not set
the `transcode` flag and the extension is not in the browser-incompatible
set, refuting the claimed characterisation of the router. -/
theorem c3_counterexample :
    needsTranscode none (some "true") "http://example.com/video.mp4" = true ∧
    (none : Option String) ≠ some "true" ∧
    hasIncompatibleExt "http://example.com/video.mp4" = false := by
  exact ⟨by decide, by decide, by decide⟩

/-- C3 (amended): the router selects the remux pipeline exactly when
`transcode=true`, or `faststart=true`, or the URL's extension is in the
browser-incompatible set; a `.mkv` URL always takes the remux path, and a
`.mp4` URL with neither flag always takes the direct path. -/
theorem c3_router_characterisation (transcode faststart : Option String) (videoUrl : String) :
    (needsTranscode transcode faststart videoUrl = true ↔
      (transcode = some "true" ∨ faststart = some "true" ∨
        hasIncompatibleExt videoUrl = true)) ∧
    (endsWithCI videoUrl ".mkv" = true → needsTranscode transcode faststart videoUrl = true) ∧
    (transcode ≠ some "true" → faststart ≠ some "true" → endsWithCI videoUrl ".mp4" = true →
      needsTranscode transcode faststart videoUrl = false) := by
  refine ⟨?_, ?_, ?_⟩
  · simp [needsTranscode, or_assoc]
  · intro h
    simp [needsTranscode, hasIncompatibleExt, h]
  · intro h1 h2 h3
    have h4 := mp4_not_incompat _ h3
    simp [needsTranscode, h4, h1, h2]

/-- C3 witness: the amended characterisation evaluated at a `.mkv` URL
without flags, a `.mp4` URL without flags, and an explicit
`transcode=true` request. -/
theorem c3_witness :
    needsTranscode none none "http://h/v.mkv" = true ∧
    needsTranscode none none "http://h/v.mp4" = false ∧
    needsTranscode (some "true") none "http://h/v.webm" = true := by
  exact ⟨(c3_router_characterisation none none "http://h/v.mkv").2.1 (by decide),
    (c3_router_characterisation none none "http://h/v.mp4").2.2 (by decide) (by decide) (by decide),
    (c3_router_characterisation (some "true") none "http://h/v.webm").1.mpr (Or.inl rfl)⟩

/-- C10: the query parameter `faststart=true` routes every request to the
remux pipeline, independently of the `transcode` flag and of the URL's
extension — a third remux trigger besides the two documented ones. -/
theorem c10_faststart_triggers_remux (transcode : Option String) (videoUrl : String) :
    needsTranscode transcode (some "true") videoUrl = true := by
  simp [needsTranscode]

/-! Claims about the remux branch of src/server.js. -/

/-- C4: whenever the client connection closes, in whatever phase the remux
job is, the handler registered on the close event kills the external
process with SIGKILL. -/
theorem c4_remux_killed_on_close (videoUrl : String) (userAgent clientRange : Option String)
    (phase : RemuxPhase) :
    (remuxSetup videoUrl userAgent clientRange).onClose phase = .killProcess "SIGKILL" := rfl

/-- C7: the remux branch always responds 200 with `Content-Type:
video/mp4` and `Connection: keep-alive`, emits no `Content-Range`, and its
response is independent of any client `Range` header. -/
theorem c7_remux_response_shape (videoUrl : String) (userAgent clientRange : Option String) :
    (remuxSetup videoUrl userAgent clientRange).status = 200 ∧
    getHeader (remuxSetup videoUrl userAgent clientRange).headers "Content-Type"
      = some "video/mp4" ∧
    getHeader (remuxSetup videoUrl userAgent clientRange).headers "Connection"
      = some "keep-alive" ∧
    getHeader (remuxSetup videoUrl userAgent clientRange).headers "Content-Range" = none ∧
    remuxSetup videoUrl userAgent clientRange = remuxSetup videoUrl userAgent none :=
  ⟨rfl, rfl, rfl, rfl, rfl⟩

/-! Claims about the direct relay pipeline of src/server.js. -/

/-- C1: a resolved non-redirect upstream response is relayed with its
status code forwarded verbatim, and a request carrying a `Range` header
against a range-supporting upstream is answered 206 with the upstream's
`Content-Range`. -/
theorem c1_direct_relay (upstream : RequestOptions → UpstreamOutcome)
    (clientRange : Option String) :
    (∀ (cookies : List String) (targetUrl : String) (attempt : Nat) (r : UpstreamResponse),
      attempt ≤ 10 →
      upstream (mkRequestOptions (legacyUrlParse targetUrl)
        (buildHeaders (legacyUrlParse targetUrl) clientRange cookies)) = .response r →
      isRedirectResponse r = false →
      (proxyStream upstream clientRange cookies targetUrl attempt).result =
        .relay r.statusCode (responseHeaders r.headers)) ∧
    (∀ (rng : String) (cookies : List String) (targetUrl : String) (attempt : Nat)
        (r : UpstreamResponse) (cr : String),
      attempt ≤ 10 → clientRange = some rng →
      (∀ opts : RequestOptions, opts.headers.range = some rng → upstream opts = .response r) →
      r.statusCode = 206 → r.headers.contentRange = some cr →
      (proxyStream upstream clientRange cookies targetUrl attempt).result =
        .relay 206 (responseHeaders r.headers) ∧
      getHeader (responseHeaders r.headers) "Content-Range" = some cr) := by
  constructor
  · intro cookies targetUrl attempt r hatt hresp hnr
    rw [proxyStreamResolve upstream clientRange cookies targetUrl attempt r (by omega) hresp hnr]
  · intro rng cookies targetUrl attempt r cr hatt hcr hup h206 hcrr
    have hnr : isRedirectResponse r = false := by
      simp [isRedirectResponse, h206]
    have hresp : upstream (mkRequestOptions (legacyUrlParse targetUrl)
        (buildHeaders (legacyUrlParse targetUrl) clientRange cookies)) = .response r := by
      apply hup
      rw [hcr]
      rfl
    refine ⟨?_, getHeader_contentRange r.headers cr hcrr⟩
    rw [proxyStreamResolve upstream clientRange cookies targetUrl attempt r (by omega) hresp hnr,
      h206]

/-- C1 witness: the relay theorem evaluated against a concrete upstream
that answers 206 with a `Content-Range`. -/
theorem c1_witness :
    (proxyStream c1Upstream (some "bytes=0-99") [] "http://h/a" 0).result =
      .relay c1Resp.statusCode (responseHeaders c1Resp.headers) ∧
    (proxyStream c1Upstream (some "bytes=0-99") [] "http://h/a" 0).result =
      .relay 206 (responseHeaders c1Resp.headers) ∧
    getHeader (responseHeaders c1Resp.headers) "Content-Range" = some "bytes 0-99/1000" := by
  have hA := (c1_direct_relay c1Upstream (some "bytes=0-99")).1 [] "http://h/a" 0 c1Resp
    (by omega) rfl (by decide)
  have hB := (c1_direct_relay c1Upstream (some "bytes=0-99")).2 "bytes=0-99" [] "http://h/a" 0
    c1Resp "bytes 0-99/1000" (by omega) rfl (fun _ _ => rfl) rfl rfl
  exact ⟨hA, hB.1, hB.2⟩

/-- C2: a chain of `N ≤ 10` redirects is followed entirely server-side,
one upstream request per hop with the attempt counter increasing by one
per hop, and the terminal resource is relayed; once the counter exceeds
10, the session responds 502 without issuing any further upstream
request. -/
theorem c2_redirects_bounded (upstream : RequestOptions → UpstreamOutcome)
    (clientRange : Option String) (N : Nat) (chain : Nat → String)
    (resp : Nat → UpstreamResponse) (term : UpstreamResponse)
    (hredir : ∀ i, i < N → isRedirectResponse (resp i) = true ∧
        (resp i).headers.location = some (chain (i + 1)) ∧
        jsStartsWith (chain (i + 1)) "/" = false)
    (hup : ∀ i, i < N → ∀ hd : RequestHeaders,
        upstream (mkRequestOptions (legacyUrlParse (chain i)) hd) = .response (resp i))
    (hterm : ∀ hd : RequestHeaders,
        upstream (mkRequestOptions (legacyUrlParse (chain N)) hd) = .response term)
    (htermNR : isRedirectResponse term = false)
    (hN : N ≤ 10) :
    (proxyStream upstream clientRange [] (chain 0) 0).result =
      .relay term.statusCode (responseHeaders term.headers) ∧
    (proxyStream upstream clientRange [] (chain 0) 0).requested =
      (List.range (N + 1)).map (fun i => (chain i, i)) ∧
    (∀ (u : String) (cookies : List String) (a : Nat), a > 10 →
      proxyStream upstream clientRange cookies u a =
        { result := .errorResponse 502 "Too many redirects", requested := [] }) := by
  have h := proxyStreamChain upstream clientRange N chain resp term hredir hup hterm htermNR hN
    N 0 [] (by omega) (by omega)
  refine ⟨?_, ?_, ?_⟩
  · rw [h]
  · rw [h, List.range_eq_range']
    simp
  · intro u cookies a ha
    exact proxyStreamCap upstream clientRange cookies u a ha

/-- C2 witness: the redirect theorem evaluated on a concrete two-redirect
chain, and the hop cap evaluated at attempt 11. -/
theorem c2_witness :
    (proxyStream c2Upstream none [] (c2Chain 0) 0).result =
      .relay 200 (responseHeaders c2TermHeaders) ∧
    (proxyStream c2Upstream none [] (c2Chain 0) 0).requested =
      [("http://h/a", 0), ("http://h/b", 1), ("http://h/c", 2)] ∧
    proxyStream c2Upstream none [] "http://h/zzz" 11 =
      { result := .errorResponse 502 "Too many redirects", requested := [] } := by
  have hredir : ∀ i, i < 2 → isRedirectResponse (c2Resp i) = true ∧
      (c2Resp i).headers.location = some (c2Chain (i + 1)) ∧
      jsStartsWith (c2Chain (i + 1)) "/" = false := by
    intro i hi
    interval_cases i
    · exact ⟨by decide, rfl, by decide⟩
    · exact ⟨by decide, rfl, by decide⟩
  have hup : ∀ i, i < 2 → ∀ hd : RequestHeaders,
      c2Upstream (mkRequestOptions (legacyUrlParse (c2Chain i)) hd) = .response (c2Resp i) := by
    intro i hi hd
    interval_cases i
    · rfl
    · rfl
  have hterm : ∀ hd : RequestHeaders,
      c2Upstream (mkRequestOptions (legacyUrlParse (c2Chain 2)) hd) = .response c2Term := by
    intro hd
    rfl
  have h := c2_redirects_bounded c2Upstream none 2 c2Chain c2Resp c2Term hredir hup hterm
    (by decide) (by omega)
  refine ⟨?_, ?_, h.2.2 "http://h/zzz" [] 11 (by omega)⟩
  · rw [h.1]
    rfl
  · rw [h.2.1]
    rfl

/-! Claims about error handling on the direct path of src/server.js. -/

/-- C8 counterexample: the options the direct path passes to the platform
request carry no timeout, so no upstream request is issued with a fixed
bounded timeout. -/
theorem c8_counterexample :
    (mkRequestOptions (legacyUrlParse "http://example.com/v.mp4")
      (buildHeaders (legacyUrlParse "http://example.com/v.mp4") none [])).timeout = none := rfl

/-- C8 (amended): no timeout is configured on direct-path upstream
requests; the installed timeout handler, if its event fires, destroys the
upstream request and responds 504 when response headers have not been
sent. -/
theorem c8_timeout_handling (parsedUrl : ParsedUrl) (hd : RequestHeaders)
    (headersSent : Bool) :
    (mkRequestOptions parsedUrl hd).timeout = none ∧
    (onUpstreamTimeout headersSent).destroyUpstream = true ∧
    (headersSent = false →
      (onUpstreamTimeout headersSent).response = some (504, "Gateway Timeout")) := by
  refine ⟨rfl, rfl, ?_⟩
  intro h
  rw [h]
  rfl

/-- C8 witness: the amended statement evaluated on concrete options with
headers not yet sent. -/
theorem c8_witness :
    (mkRequestOptions (legacyUrlParse "http://h/v.mp4")
      (buildHeaders (legacyUrlParse "http://h/v.mp4") none [])).timeout = none ∧
    (onUpstreamTimeout false).destroyUpstream = true ∧
    (onUpstreamTimeout false).response = some (504, "Gateway Timeout") := by
  have h := c8_timeout_handling (legacyUrlParse "http://h/v.mp4")
    (buildHeaders (legacyUrlParse "http://h/v.mp4") none []) false
  exact ⟨h.1, h.2.1, h.2.2 rfl⟩

/-- C9 counterexample: an upstream response carrying `Last-Modified` is
relayed without it — the direct path never forwards `Last-Modified`,
refuting the claimed forwarding list. -/
theorem c9_counterexample :
    c9Example.lastModified = some "Wed, 21 Oct 2015 07:28:00 GMT" ∧
    getHeader (responseHeaders c9Example) "Last-Modified" = none :=
  ⟨rfl, rfl⟩

/-- C9 (amended): the direct path forwards `Content-Length`,
`Content-Range` and `ETag` when present upstream, never forwards
`Last-Modified`, and always asserts `Accept-Ranges: bytes`, a cross-origin
resource policy and a permissive CORS origin. -/
theorem c9_header_forwarding (h : UpstreamHeaders) :
    (∀ v, h.contentLength = some v →
      getHeader (responseHeaders h) "Content-Length" = some v) ∧
    (∀ v, h.contentRange = some v →
      getHeader (responseHeaders h) "Content-Range" = some v) ∧
    (∀ v, h.etag = some v → getHeader (responseHeaders h) "ETag" = some v) ∧
    getHeader (responseHeaders h) "Accept-Ranges" = some "bytes" ∧
    getHeader (responseHeaders h) "Cross-Origin-Resource-Policy" = some "cross-origin" ∧
    getHeader (responseHeaders h) "Access-Control-Allow-Origin" = some "*" ∧
    getHeader (responseHeaders h) "Last-Modified" = none :=
  ⟨fun v hv => getHeader_contentLength h v hv,
   fun v hv => getHeader_contentRange h v hv,
   fun v hv => getHeader_etag h v hv,
   getHeader_acceptRanges h,
   getHeader_corp h,
   getHeader_acao h,
   getHeader_lastModified_none h⟩

/-- C9 witness: the amended statement evaluated on a response carrying all
three forwardable headers. -/
theorem c9_witness :
    getHeader (responseHeaders c9Full) "Content-Length" = some "1000" ∧
    getHeader (responseHeaders c9Full) "Content-Range" = some "bytes 0-999/5000" ∧
    getHeader (responseHeaders c9Full) "ETag" = some "tag1" ∧
    getHeader (responseHeaders c9Full) "Accept-Ranges" = some "bytes" ∧
    getHeader (responseHeaders c9Full) "Last-Modified" = none := by
  have h := c9_header_forwarding c9Full
  exact ⟨h.1 _ rfl, h.2.1 _ rfl, h.2.2.1 _ rfl, h.2.2.2.1, h.2.2.2.2.2.2⟩

end StreamGateway

namespace Part004

/-! Claims about the validation and provider-exclusion prefix of
src/unnamed/part_004. -/

/-- C5: a request whose url parameter is absent, empty, or fails
absolute-URL parsing is classified `invalidRequest` and answered 400
before any upstream request; a request with a valid absolute URL is never
classified `invalidRequest`. -/
theorem c5_invalid_url_rejected (absUrlParses : String → Bool)
    (urlParam transcode : Option String) :
    ((jsTruthy urlParam = false ∨ absUrlParses (urlParam.getD "") = false) →
      route absUrlParses urlParam transcode = .invalidRequest ∧
      errorStatus (route absUrlParses urlParam transcode) = some 400 ∧
      issuesUpstreamRequest (route absUrlParses urlParam transcode) = false) ∧
    (jsTruthy urlParam = true → absUrlParses (urlParam.getD "") = true →
      route absUrlParses urlParam transcode ≠ .invalidRequest) := by
  constructor
  · intro h
    have hroute : route absUrlParses urlParam transcode = .invalidRequest := by
      unfold route isValidUrl
      rcases h with h | h <;> simp [h]
    exact ⟨hroute, by rw [hroute]; rfl, by rw [hroute]; rfl⟩
  · intro h1 h2
    unfold route isValidUrl
    simp [h1, h2]
    split
    · simp
    · split <;> simp

/-- C5 witness: the validation theorem evaluated on an absent url
parameter and on a valid absolute URL. -/
theorem c5_witness :
    route (fun s => StreamGateway.jsStartsWith s "http://") none none = .invalidRequest ∧
    errorStatus (route (fun s => StreamGateway.jsStartsWith s "http://") none none)
      = some 400 ∧
    issuesUpstreamRequest (route (fun s => StreamGateway.jsStartsWith s "http://") none none)
      = false ∧
    route (fun s => StreamGateway.jsStartsWith s "http://") (some "http://h/v.mp4") none
      ≠ .invalidRequest := by
  have h1 := (c5_invalid_url_rejected (fun s => StreamGateway.jsStartsWith s "http://")
    none none).1 (Or.inl rfl)
  have h2 := (c5_invalid_url_rejected (fun s => StreamGateway.jsStartsWith s "http://")
    (some "http://h/v.mp4") none).2 (by decide) (by decide)
  exact ⟨h1.1, h1.2.1, h1.2.2, h2⟩

/-- C6: a valid absolute URL recognised as YouTube is classified
`unsupportedProvider`, answered 400, and never fetched upstream. -/
theorem c6_youtube_rejected (absUrlParses : String → Bool) (transcode : Option String)
    (u : String) (hne : (u == "") = false) (hv : absUrlParses u = true)
    (hyt : isYouTube u = true) :
    route absUrlParses (some u) transcode = .unsupportedProvider ∧
    errorStatus (route absUrlParses (some u) transcode) = some 400 ∧
    issuesUpstreamRequest (route absUrlParses (some u) transcode) = false := by
  have hroute : route absUrlParses (some u) transcode = .unsupportedProvider := by
    unfold route isValidUrl jsTruthy
    simp [hne, hv, hyt]
  exact ⟨hroute, by rw [hroute]; rfl, by rw [hroute]; rfl⟩

/-- C6 witness: the provider-exclusion theorem evaluated on a concrete
YouTube watch URL. -/
theorem c6_witness :
    route (fun _ => true) (some "https://www.youtube.com/watch?v=abc") none
      = .unsupportedProvider ∧
    errorStatus (route (fun _ => true) (some "https://www.youtube.com/watch?v=abc") none)
      = some 400 ∧
    issuesUpstreamRequest
      (route (fun _ => true) (some "https://www.youtube.com/watch?v=abc") none) = false :=
  c6_youtube_rejected (fun _ => true) none "https://www.youtube.com/watch?v=abc"
    (by decide) rfl (by decide)

end Part004


